import Mathlib

/-
Verification of the live pod-view broadcast core of the Yatai api-server
(api-server/controllers/controllersv1/deployment.go and cluster.go).

The embedding below translates the websocket pod-stream logic:
  * the connWrapper session wrappers and their attachment to a broadcast group
    (deployment.go 709-766),
  * the per-sweep send fan-out of the deployment-scoped stream
    (deployment.go 855-940),
  * the wrapping send_ that maintains the failure counter (deployment.go 942-948),
  * the manager acquisition protocol over the hasManager flag
    (deployment.go 820-846) as an explicit interleaving transition system,
  * the failure-threshold ticker loop and the deferred teardown
    (deployment.go 985-1003 and 841-845),
  * the detached deployment-status re-sync side effect (deployment.go 885-898),
  * the cluster-selector stream sweep (cluster.go 237-259) and the error-frame
    discipline of both handlers (deployment.go 722-741, cluster.go 178-216),
  * the informer handler registration that is never undone
    (deployment.go 964-983).
-/

namespace YataiWs

/-- A Kubernetes pod as the informer lister exposes it: name, labels, phase. -/
structure Pod where
  name : String
  labels : List (String × String)
  phase : String
deriving DecidableEq, Repr

/-- The client-facing pod schema produced by the transformer. -/
structure KubePodSchema where
  name : String
  status : String
deriving DecidableEq, Repr

/-- Lookup of a label value by key, first match wins. -/
def lookupLabel : List (String × String) → String → Option String
  | [], _ => none
  | (k, v) :: rest, key => if k = key then some v else lookupLabel rest key

/-- The label key used by checkPod in deployment.go 958. -/
def kubeLabelYataiBentoDeployment : String := "yatai-deployment"

/-- checkPod of the deployment stream (deployment.go 953-962): a pod belongs to the
subject when its deployment label equals the deployment name. -/
def checkPod (deploymentName : String) (pod : Pod) : Bool :=
  decide (lookupLabel pod.labels kubeLabelYataiBentoDeployment = some deploymentName)

/-- Modelled from the spec: KubePodService.ListPodsByDeployment is not under src/;
per the spec the deployment-mode pod predicate filters the lister snapshot by the
deployment label. -/
def listPodsByDeployment (lister : List Pod) (deploymentName : String) : List Pod :=
  lister.filter (checkPod deploymentName)

/-- Modelled from the spec: transformersv1.ToKubePodSchemas is not under src/; per the
spec the view builder is a deterministic, order-preserving transformation of the
filtered pods into client-facing schemas. -/
def toKubePodSchemas (pods : List Pod) : List KubePodSchema :=
  pods.map (fun p => { name := p.name, status := p.phase })

/-- connWrapper (deployment.go 716-720): socket handle identified here by id, plus the
IsNew and IsClosed flags. -/
structure ConnWrapper where
  id : Nat
  isNew : Bool
  isClosed : Bool
deriving DecidableEq, Repr

/-- Attachment of a session to the broadcast group (deployment.go 753-766): the wrapper
is created with IsNew := false and IsClosed := false and appended to the group slice. -/
def attachConn (conns : List ConnWrapper) (i : Nat) : List ConnWrapper × ConnWrapper :=
  let connW : ConnWrapper := { id := i, isNew := false, isClosed := false }
  (conns ++ [connW], connW)

/-- Result of session admission: the group set, the wrapper state, whether the handler
returned an error, and whether the deferred Close ran on the socket. -/
structure AdmissionResult where
  conns : List ConnWrapper
  wrapper : ConnWrapper
  handlerErr : Bool
  socketClosed : Bool
deriving DecidableEq, Repr

/-- Session admission in deployment WsPods (deployment.go 753-801): attach the wrapper,
then write the initial snapshot. On success IsNew is set to false (deployment.go 801).
On failure the handler returns the error; the deferred conn.Close() closes the socket,
but nothing marks the wrapper closed or removes it from the group set. -/
def wsPodsAdmission (conns : List ConnWrapper) (i : Nat) (initialWriteOk : Bool) :
    AdmissionResult :=
  let a := attachConn conns i
  if initialWriteOk then
    { conns := a.1, wrapper := { a.2 with isNew := false },
      handlerErr := false, socketClosed := false }
  else
    { conns := a.1, wrapper := a.2, handlerErr := true, socketClosed := true }

/-- Result of the per-sweep fan-out loop: the stored newConns slice, the ids to which a
frame write was attempted, the ids to which it was delivered, and the ids whose wrapper
had IsClosed set because the write failed. -/
structure FanOutResult where
  conns : List ConnWrapper
  attempted : List Nat
  delivered : List Nat
  closedIds : List Nat
deriving DecidableEq, Repr

/-- Fan-out loop of send (deployment.go 901-932): a closed wrapper is skipped and
dropped; a wrapper that is neither new nor facing a changed view is kept without a
write; otherwise the frame is written — on success IsNew is cleared and the wrapper is
kept, on failure the socket is closed, IsClosed is set, and the wrapper is dropped. -/
def fanOut (v : Bool) (w : Nat → Bool) : List ConnWrapper → FanOutResult
  | [] => { conns := [], attempted := [], delivered := [], closedIds := [] }
  | c :: rest =>
    let r := fanOut v w rest
    if c.isClosed then r
    else if !c.isNew && !v then { r with conns := c :: r.conns }
    else if w c.id then
      { r with conns := { c with isNew := false } :: r.conns,
               attempted := c.id :: r.attempted, delivered := c.id :: r.delivered }
    else
      { r with attempted := c.id :: r.attempted, closedIds := c.id :: r.closedIds }

/-- Result of one send sweep of the deployment stream. -/
structure SendResult where
  conns : List ConnWrapper
  lastView : List KubePodSchema
  attempted : List Nat
  delivered : List Nat
  closedIds : List Nat
  sweepErr : Bool
  storedZero : Bool
  sideEffect : Option Nat
deriving DecidableEq, Repr

/-- send of the deployment stream (deployment.go 855-940): return immediately when the
polling context is done; on a lister or transformer error return the error with the
group untouched; otherwise compare the freshly built view with the last one by deep
structural equality (deployment.go 885), schedule the detached status re-sync with a
10 second timeout when the view changed (deployment.go 886-898), overwrite the last
view, fan the frame out, store the pruned slice and reset the failure counter to zero
(deployment.go 937-938). -/
def deploymentSend (ctxDone listErr transformErr : Bool) (conns : List ConnWrapper)
    (lastView : List KubePodSchema) (lister : List Pod) (deploymentName : String)
    (writeOk : Nat → Bool) : SendResult :=
  if ctxDone then
    { conns := conns, lastView := lastView, attempted := [], delivered := [],
      closedIds := [], sweepErr := false, storedZero := false, sideEffect := none }
  else if listErr then
    { conns := conns, lastView := lastView, attempted := [], delivered := [],
      closedIds := [], sweepErr := true, storedZero := false, sideEffect := none }
  else if transformErr then
    { conns := conns, lastView := lastView, attempted := [], delivered := [],
      closedIds := [], sweepErr := true, storedZero := false, sideEffect := none }
  else
    let newView := toKubePodSchemas (listPodsByDeployment lister deploymentName)
    let viewChanged : Bool := !(decide (newView = lastView))
    let r := fanOut viewChanged writeOk conns
    { conns := r.conns, lastView := newView, attempted := r.attempted,
      delivered := r.delivered, closedIds := r.closedIds, sweepErr := false,
      storedZero := true, sideEffect := if viewChanged then some 10 else none }

/-- Failure counter after the send_ wrapper around one sweep (deployment.go 942-948):
a sweep error increments the counter; a completed sweep stored zero
(deployment.go 938); an early return on a done context leaves it untouched. -/
def sendWrapperCount (c : Nat) (r : SendResult) : Nat :=
  if r.sweepErr then c + 1 else if r.storedZero then 0 else c

/-- Failure-counter contribution of the detached status re-sync task
(deployment.go 887-897): failed() runs only when DeploymentService.Get fails; the
SyncStatus result is discarded with a blank assignment, so its failure never counts. -/
def syncStatusSideEffect (getOk : Bool) (syncOk : Bool) : Nat :=
  if getOk then 0 else 1

/-- Result of one send sweep of the cluster-selector stream. -/
structure ClusterSendResult where
  wroteFrame : Bool
  payload : Option (List KubePodSchema)
  failedCount : Nat
deriving DecidableEq, Repr

/-- send of the cluster-selector stream (cluster.go 237-259): list the pods matching
the selector, transform them, and write the frame to the single connection. Any error
increments the failure counter through the deferred fail(); there is no comparison with
a previous view and the counter is never reset. ListPodsBySelector is not under src/
and is modelled from the spec as filtering the lister snapshot by the selector. -/
def clusterSend (lister : List Pod) (sel : Pod → Bool) (listErr transformErr writeErr : Bool)
    (failedCount : Nat) : ClusterSendResult :=
  if listErr then
    { wroteFrame := false, payload := none, failedCount := failedCount + 1 }
  else if transformErr then
    { wroteFrame := false, payload := none, failedCount := failedCount + 1 }
  else
    let view := toKubePodSchemas (lister.filter sel)
    if writeErr then
      { wroteFrame := true, payload := some view, failedCount := failedCount + 1 }
    else
      { wroteFrame := true, payload := some view, failedCount := failedCount }

/-- Program counter of one session inside the manager acquisition protocol of
deployment WsPods (deployment.go 820-846). -/
inductive AcqPC
  | check
  | acquire
  | manager
deriving DecidableEq, Repr

/-- Shared state of two sessions of the same subject racing for the manager role. -/
structure AcqState where
  hasManager : Bool
  pc1 : AcqPC
  pc2 : AcqPC
deriving DecidableEq, Repr

/-- One step of one session in the acquisition protocol: at check the session reads
hasManager under the read lock (deployment.go 828-830) — if true it keeps waiting, if
false it breaks out of the wait loop; at acquire it takes the write lock and sets
hasManager := true without re-checking (deployment.go 839-846), entering the manager
section. The read and the write are separate critical sections of the same RWMutex. -/
def acqStep : AcqPC → Bool → AcqPC × Bool
  | AcqPC.check, h => if h then (AcqPC.check, h) else (AcqPC.acquire, h)
  | AcqPC.acquire, _ => (AcqPC.manager, true)
  | AcqPC.manager, h => (AcqPC.manager, h)

/-- Interleaving step: the scheduler picks session one (true) or session two (false). -/
def stepSession (s : AcqState) (first : Bool) : AcqState :=
  if first then
    { s with pc1 := (acqStep s.pc1 s.hasManager).1,
             hasManager := (acqStep s.pc1 s.hasManager).2 }
  else
    { s with pc2 := (acqStep s.pc2 s.hasManager).1,
             hasManager := (acqStep s.pc2 s.hasManager).2 }

/-- Run the two-session protocol under an explicit schedule. -/
def runSched : AcqState → List Bool → AcqState
  | s, [] => s
  | s, i :: rest => runSched (stepSession s i) rest

/-- Initial state: no manager for the subject, both sessions about to check. -/
def acqInit : AcqState := { hasManager := false, pc1 := AcqPC.check, pc2 := AcqPC.check }

/-- maxFailed of both streams (deployment.go 849, cluster.go 231). -/
def maxFailed : Nat := 10

/-- Exit guard of the manager ticker loop (deployment.go 996, cluster.go 304): the loop
stops once the failure counter exceeds maxFailed. -/
def managerShouldExit (failedCount : Nat) : Bool :=
  decide (failedCount > maxFailed)

/-- Evolution of the failure counter over a run of sweeps: a clean sweep stores zero
(deployment.go 938), a failed sweep increments (deployment.go 851-853). -/
def failedCountAfter : Nat → List Bool → Nat
  | c, [] => c
  | _, true :: rest => failedCountAfter 0 rest
  | c, false :: rest => failedCountAfter (c + 1) rest

/-- Deferred manager teardown (deployment.go 841-845): when the manager section exits,
hasManager for the subject key is cleared to false under the write lock. -/
def managerTeardown (m : String → Bool) (key : String) : String → Bool :=
  fun k => if k = key then false else m k

/-- AddEventHandler on the shared informer (deployment.go 964): handlers are appended
to the informer registry. -/
def addEventHandler (handlers : List Nat) (h : Nat) : List Nat := handlers ++ [h]

/-- State after the manager section of WsPods returns. -/
structure ManagerExitState where
  handlers : List Nat
  pollingCtxDone : Bool
deriving DecidableEq, Repr

/-- Manager section of deployment WsPods (deployment.go 950-1005): the manager
registers its informer event handler (deployment.go 964-983) and runs the ticker loop;
when the handler function returns, the deferred cancel (deployment.go 803-804) cancels
pollingCtx, but no call ever removes the event handler from the shared informer. -/
def managerRunAndExit (handlers : List Nat) (h : Nat) : ManagerExitState :=
  { handlers := addEventHandler handlers h, pollingCtxDone := true }

/-- Modelled from the spec: writeWsError is not under src/; per the spec it writes a
single error frame when the error is non-nil and nothing otherwise. -/
def writeWsError (errPresent : Bool) : Nat :=
  if errPresent then 1 else 0

/-- Post-upgrade failure points of deployment WsPods (deployment.go 735-800), all of
them covered by the deferred writeWsError registered right after the upgrade
(deployment.go 731-733). -/
inductive DeploymentWsFailure
  | getDeploymentFail
  | canViewFail
  | getClusterFail
  | informerFail
  | listFail
  | transformFail
  | initialWriteFail
deriving DecidableEq, Repr

/-- Post-upgrade failure points of cluster WsPods (cluster.go 187-216). The error-frame
defer is registered only at cluster.go 195-204, after the cluster lookup and the
authorization check. -/
inductive ClusterWsStage
  | getClusterFail
  | canViewFail
  | selectorParseFail
  | informerFail
deriving DecidableEq, Repr

/-- Observable outcome of a failed streaming handler: how many error frames were
written to the socket and whether the socket was closed. -/
structure WsHandlerOutcome where
  errorFrames : Nat
  socketClosed : Bool
deriving DecidableEq, Repr

/-- Deployment WsPods failure outcome: every post-upgrade failure returns a non-nil
error, so the deferred writeWsError (deployment.go 731-733) writes one error frame and
the deferred Close (deployment.go 729) then closes the socket. -/
def deploymentWsPodsFailureOutcome (f : DeploymentWsFailure) : WsHandlerOutcome :=
  { errorFrames := writeWsError true, socketClosed := true }

/-- Cluster WsPods failure outcome: the cluster lookup failure (cluster.go 187-190) and
the authorization failure (cluster.go 191-193) return before the error-frame defer is
registered at cluster.go 195-204, so no error frame is written; the selector parse
failure (cluster.go 206-211) and the informer construction failure (cluster.go 213-216)
happen after it, so one error frame is written; the deferred Close (cluster.go 185)
closes the socket in every case. -/
def clusterWsPodsFailureOutcome : ClusterWsStage → WsHandlerOutcome
  | ClusterWsStage.getClusterFail => { errorFrames := 0, socketClosed := true }
  | ClusterWsStage.canViewFail => { errorFrames := 0, socketClosed := true }
  | ClusterWsStage.selectorParseFail => { errorFrames := writeWsError true, socketClosed := true }
  | ClusterWsStage.informerFail => { errorFrames := writeWsError true, socketClosed := true }

/-- A demonstration pod carrying the deployment label of subject d and an app label. -/
def demoPod : Pod :=
  { name := "p1", labels := [("yatai-deployment", "d"), ("app", "foo")], phase := "Running" }

/-- A demonstration lister snapshot. -/
def demoLister : List Pod := [demoPod]

/-- A demonstration label selector: app equals foo. -/
def demoSel : Pod → Bool := fun p => decide (lookupLabel p.labels "app" = some "foo")

/-- Two demonstration sessions, both already past admission. -/
def demoConns : List ConnWrapper :=
  [{ id := 1, isNew := false, isClosed := false },
   { id := 2, isNew := false, isClosed := false }]

/-- The fan-out attempts a frame write exactly on the non-closed wrappers that are new
or face a changed view. -/
theorem fanOut_attempted (v : Bool) (w : Nat → Bool) (cs : List ConnWrapper) :
    (fanOut v w cs).attempted
      = (cs.filter (fun c => !c.isClosed && (c.isNew || v))).map (fun c => c.id) := by
  induction cs with
  | nil => rfl
  | cons c rest ih =>
    cases hc : c.isClosed <;> cases hn : c.isNew <;> cases hw : w c.id <;> cases v <;>
      simp_all [fanOut]

/-- The fan-out delivers the frame exactly to the non-closed wrappers that are new or
face a changed view and whose socket write succeeds. -/
theorem fanOut_delivered (v : Bool) (w : Nat → Bool) (cs : List ConnWrapper) :
    (fanOut v w cs).delivered
      = (cs.filter (fun c => !c.isClosed && (c.isNew || v) && w c.id)).map (fun c => c.id) := by
  induction cs with
  | nil => rfl
  | cons c rest ih =>
    cases hc : c.isClosed <;> cases hn : c.isNew <;> cases hw : w c.id <;> cases v <;>
      simp_all [fanOut]

/-- The fan-out marks closed exactly the non-closed wrappers whose attempted write
failed. -/
theorem fanOut_closedIds (v : Bool) (w : Nat → Bool) (cs : List ConnWrapper) :
    (fanOut v w cs).closedIds
      = (cs.filter (fun c => !c.isClosed && (c.isNew || v) && !w c.id)).map (fun c => c.id) := by
  induction cs with
  | nil => rfl
  | cons c rest ih =>
    cases hc : c.isClosed <;> cases hn : c.isNew <;> cases hw : w c.id <;> cases v <;>
      simp_all [fanOut]

/-- The stored slice after the fan-out keeps exactly the non-closed wrappers that were
not written or whose write succeeded, clearing IsNew on the written ones. -/
theorem fanOut_conns (v : Bool) (w : Nat → Bool) (cs : List ConnWrapper) :
    (fanOut v w cs).conns
      = (cs.filter (fun c => !c.isClosed && (!(c.isNew || v) || w c.id))).map
          (fun c => if c.isNew || v then { c with isNew := false } else c) := by
  induction cs with
  | nil => rfl
  | cons c rest ih =>
    cases hc : c.isClosed <;> cases hn : c.isNew <;> cases hw : w c.id <;> cases v <;>
      simp_all [fanOut]

/-- Every wrapper stored back by the fan-out has IsNew = false: wrappers kept without a
write were kept precisely because they were not new, and written wrappers had IsNew
cleared. -/
theorem fanOut_conns_all_notNew (v : Bool) (w : Nat → Bool) (cs : List ConnWrapper) :
    ((fanOut v w cs).conns.all (fun c => !c.isNew)) = true := by
  induction cs with
  | nil => rfl
  | cons c rest ih =>
    cases hc : c.isClosed <;> cases hn : c.isNew <;> cases hw : w c.id <;> cases v <;>
      simp_all [fanOut]

/-- C1 (amended, deployment path): on a sweep of the deployment pod-stream group that
reaches the fan-out, a frame write is attempted on a non-closed session exactly when
the freshly built view differs from the last built view or the session is marked new;
in particular, when the view built from the pods matching the deployment predicate
equals the last view and no session is new, no write occurs. -/
theorem deploymentSweepWriteIff (cs : List ConnWrapper) (lastView : List KubePodSchema)
    (lister : List Pod) (deploymentName : String) (w : Nat → Bool) :
    (deploymentSend false false false cs lastView lister deploymentName w).attempted
      = (cs.filter (fun c => !c.isClosed && (c.isNew ||
          !(decide (toKubePodSchemas (listPodsByDeployment lister deploymentName)
              = lastView))))).map (fun c => c.id)
  ∧ (toKubePodSchemas (listPodsByDeployment lister deploymentName) = lastView →
      (cs.all fun c => !c.isNew) = true →
      (deploymentSend false false false cs lastView lister deploymentName w).attempted
        = []) := by
  constructor
  · simp [deploymentSend, fanOut_attempted]
  · intro hview hall
    simp only [deploymentSend, Bool.false_eq_true, if_false, fanOut_attempted, hview,
      decide_eq_true_eq]
    simp only [decide_True, Bool.not_true, Bool.or_false]
    rw [List.map_eq_nil_iff, List.filter_eq_nil_iff]
    intro a ha
    have h1 := List.all_eq_true.mp hall a ha
    simp_all

/-- Witness for the hypotheses of deploymentSweepWriteIff: a subject with one matching
pod, an unchanged view and a single non-new session sees no write attempt. -/
theorem deploymentSweepWriteIffWitness :
    toKubePodSchemas (listPodsByDeployment demoLister "d")
      = [{ name := "p1", status := "Running" }]
  ∧ (([{ id := 1, isNew := false, isClosed := false }] : List ConnWrapper).all
      fun c => !c.isNew) = true
  ∧ (deploymentSend false false false [{ id := 1, isNew := false, isClosed := false }]
      [{ name := "p1", status := "Running" }] demoLister "d" (fun _ => true)).attempted
      = [] :=
  ⟨by decide, by decide,
   (deploymentSweepWriteIff [{ id := 1, isNew := false, isClosed := false }]
      [{ name := "p1", status := "Running" }] demoLister "d" (fun _ => true)).2
     (by decide) (by decide)⟩

/-- C1 (counterexample for the cluster-selector path): the cluster stream keeps no last
view and compares nothing; two consecutive sweeps over the same lister and selector
build the same payload, and the second sweep still writes a frame, against the claim
that an unchanged matching pod set with no new session produces no write. -/
theorem clusterSweepWritesUnchangedView :
    (clusterSend demoLister demoSel false false false 0).payload
      = (clusterSend demoLister demoSel false false false 0).payload
  ∧ (clusterSend demoLister demoSel false false false 0).wroteFrame = true := by
  decide

/-- C2: the manager acquisition protocol of deployment WsPods races: session one reads
hasManager = false under the read lock, session two reads hasManager = false as well,
then both take the write lock in turn and set the flag without re-checking, and both
end up in the manager section — two manager loops for the same subject. -/
theorem wsPodsManagerAcquisitionRace :
    (runSched acqInit [true, false, true, false]).pc1 = AcqPC.manager
  ∧ (runSched acqInit [true, false, true, false]).pc2 = AcqPC.manager
  ∧ (runSched acqInit [true, false, true, false]).hasManager = true := by
  decide

/-- C3 (counterexample): a freshly attached session wrapper has IsNew = false
(deployment.go 759-763), against the claim that IsNew is true from the moment of
attachment until the first successful write. -/
theorem wsPodsAttachIsNewFalse :
    (attachConn ([] : List ConnWrapper) 3).2.isNew = false := rfl

/-- C3 (amended): a deployment pod-stream session is appended with IsNew = false at
attachment, and no path of the stream ever sets IsNew to true — the fan-out only
clears it — so a session whose initial snapshot write fails is not marked new and is
not retried by a later sweep; the handler returns with the error instead. -/
theorem wsPodsIsNewNeverSet (cs : List ConnWrapper) (i : Nat) (v : Bool)
    (w : Nat → Bool) :
    (attachConn cs i).2.isNew = false
  ∧ ((fanOut v w cs).conns.all (fun c => !c.isNew)) = true :=
  ⟨rfl, fanOut_conns_all_notNew v w cs⟩

/-- C4: eleven consecutive failed sweeps drive the failure counter to eleven, which is
the first value exceeding maxFailed = 10, so the ticker loop exit guard fires — after
ten failures it does not; on exit the deferred teardown clears hasManager for the
subject key, and a session checking afterwards breaks out of the wait loop and
proceeds to acquire a fresh manager. -/
theorem wsPodsFailureThresholdTeardown (m : String → Bool) (key : String) :
    failedCountAfter 0 (List.replicate 11 false) = 11
  ∧ managerShouldExit (failedCountAfter 0 (List.replicate 11 false)) = true
  ∧ managerShouldExit (failedCountAfter 0 (List.replicate 10 false)) = false
  ∧ managerTeardown m key key = false
  ∧ acqStep AcqPC.check (managerTeardown m key key) = (AcqPC.acquire, false) := by
  refine ⟨by decide, by decide, by decide, ?_, ?_⟩ <;> simp [managerTeardown, acqStep]

/-- C5 (counterexample): on the cluster-selector stream a failed sweep raises the
counter to one, and a following clean sweep leaves it at one — the cluster path never
resets the failure counter, against the claim that the reset happens on both paths. -/
theorem clusterSendKeepsFailureCount :
    (clusterSend demoLister demoSel false false false
        ((clusterSend demoLister demoSel true false false 0).failedCount)).failedCount = 1
  ∧ (clusterSend demoLister demoSel false false false
        ((clusterSend demoLister demoSel true false false 0).failedCount)).failedCount
      ≠ 0 := by
  decide

/-- C5 (amended): every clean sweep of the deployment stream stores zero into the
failure counter, whatever its previous value; a clean sweep of the cluster-selector
stream leaves the counter exactly as it was. -/
theorem failureCounterResetDeploymentOnly (cs : List ConnWrapper)
    (lastView : List KubePodSchema) (lister : List Pod) (deploymentName : String)
    (w : Nat → Bool) (k : Nat) (pods : List Pod) (sel : Pod → Bool) (c : Nat) :
    sendWrapperCount k (deploymentSend false false false cs lastView lister
        deploymentName w) = 0
  ∧ (clusterSend pods sel false false false c).failedCount = c := by
  constructor
  · simp [deploymentSend, sendWrapperCount]
  · simp [clusterSend]

/-- C6 (counterexample): on the cluster path a cluster lookup failure or an
authorization failure after the upgrade writes zero error frames, because the handler
returns before the error-frame defer of cluster.go 195-204 is registered — against the
claim that exactly one error frame is written on every post-upgrade handler failure. -/
theorem clusterAuthFailureWritesNoErrorFrame :
    (clusterWsPodsFailureOutcome ClusterWsStage.getClusterFail).errorFrames = 0
  ∧ (clusterWsPodsFailureOutcome ClusterWsStage.canViewFail).errorFrames = 0
  ∧ (0 : Nat) ≠ 1 := by decide

/-- C6 (amended): on the deployment path every post-upgrade failure writes exactly one
error frame and the socket is closed; on the cluster path only the selector parse
failure and the informer construction failure write one error frame, while the
not-found and authorization failures write none; the socket is closed in every case. -/
theorem wsPodsErrorFrameDiscipline (f : DeploymentWsFailure) (s : ClusterWsStage) :
    deploymentWsPodsFailureOutcome f = { errorFrames := 1, socketClosed := true }
  ∧ clusterWsPodsFailureOutcome ClusterWsStage.selectorParseFail
      = { errorFrames := 1, socketClosed := true }
  ∧ clusterWsPodsFailureOutcome ClusterWsStage.informerFail
      = { errorFrames := 1, socketClosed := true }
  ∧ clusterWsPodsFailureOutcome ClusterWsStage.getClusterFail
      = { errorFrames := 0, socketClosed := true }
  ∧ clusterWsPodsFailureOutcome ClusterWsStage.canViewFail
      = { errorFrames := 0, socketClosed := true }
  ∧ (clusterWsPodsFailureOutcome s).socketClosed = true := by
  refine ⟨rfl, rfl, rfl, rfl, rfl, ?_⟩
  cases s <;> rfl

/-- C7: on a sweep with a changed view, the frame write is attempted on every
non-closed session; the sessions whose write fails are the only ones closed and
pruned, every other non-closed session receives the frame and is kept, and the sweep
still completes cleanly, resetting the failure counter to zero. -/
theorem sweepWriteFailureIsolation (cs : List ConnWrapper)
    (lastView : List KubePodSchema) (lister : List Pod) (deploymentName : String)
    (w : Nat → Bool) (k : Nat)
    (hchange : toKubePodSchemas (listPodsByDeployment lister deploymentName)
        ≠ lastView) :
    (deploymentSend false false false cs lastView lister deploymentName w).attempted
      = (cs.filter (fun c => !c.isClosed)).map (fun c => c.id)
  ∧ (deploymentSend false false false cs lastView lister deploymentName w).delivered
      = (cs.filter (fun c => !c.isClosed && w c.id)).map (fun c => c.id)
  ∧ (deploymentSend false false false cs lastView lister deploymentName w).closedIds
      = (cs.filter (fun c => !c.isClosed && !w c.id)).map (fun c => c.id)
  ∧ (deploymentSend false false false cs lastView lister deploymentName w).conns
      = (cs.filter (fun c => !c.isClosed && w c.id)).map
          (fun c => { c with isNew := false })
  ∧ (deploymentSend false false false cs lastView lister deploymentName w).sweepErr
      = false
  ∧ sendWrapperCount k (deploymentSend false false false cs lastView lister
        deploymentName w) = 0 := by
  have hv : decide (toKubePodSchemas (listPodsByDeployment lister deploymentName)
      = lastView) = false := decide_eq_false hchange
  refine ⟨?_, ?_, ?_, ?_, ?_, ?_⟩ <;>
    simp [deploymentSend, sendWrapperCount, fanOut_attempted, fanOut_delivered,
      fanOut_closedIds, fanOut_conns, hv]

/-- Witness for the hypothesis of sweepWriteFailureIsolation: a changed view with two
sessions, one of which fails its write, still yields a clean sweep with counter
zero. -/
theorem sweepWriteFailureIsolationWitness :
    toKubePodSchemas (listPodsByDeployment demoLister "d") ≠ ([] : List KubePodSchema)
  ∧ sendWrapperCount 5 (deploymentSend false false false demoConns [] demoLister "d"
        (fun i => decide (i = 1))) = 0 :=
  ⟨by decide,
   (sweepWriteFailureIsolation demoConns [] demoLister "d" (fun i => decide (i = 1)) 5
      (by decide)).2.2.2.2.2⟩

/-- C8 (counterexample): on a sweep with a changed view the detached re-sync task is
scheduled with a 10 second timeout, and when the deployment fetch succeeds but the
status re-sync itself fails, the failure counter is not incremented — the SyncStatus
result is discarded — against the claim that any failure of the side-effect task
increments the counter. -/
theorem syncStatusFailureNotCounted :
    (deploymentSend false false false demoConns [] demoLister "d"
        (fun _ => true)).sideEffect = some 10
  ∧ syncStatusSideEffect true false = 0
  ∧ (0 : Nat) ≠ 1 := by decide

/-- C8 (amended): whenever the freshly built view differs from the last one, the sweep
schedules the detached deployment-status re-sync with a 10 second timeout, and
schedules nothing otherwise; of the side-effect task only a failure of the deployment
fetch increments the failure counter — the result of the re-sync call itself is
discarded. -/
theorem viewChangeSideEffectSchedule (cs : List ConnWrapper)
    (lastView : List KubePodSchema) (lister : List Pod) (deploymentName : String)
    (w : Nat → Bool) (syncOk : Bool) :
    (deploymentSend false false false cs lastView lister deploymentName w).sideEffect
      = (if toKubePodSchemas (listPodsByDeployment lister deploymentName) = lastView
          then none else some 10)
  ∧ syncStatusSideEffect false syncOk = 1
  ∧ syncStatusSideEffect true syncOk = 0 := by
  refine ⟨?_, rfl, rfl⟩
  by_cases h : toKubePodSchemas (listPodsByDeployment lister deploymentName)
      = lastView <;>
    simp [deploymentSend, h]

/-- C9 (counterexample): when the initial snapshot write fails, the handler returns and
the socket is closed, but the wrapper keeps IsClosed = false and stays inside the
group session set — against the claim that its closed flag is set and that it is not
left in the active set. -/
theorem failedInitialWriteLeavesSessionInGroup :
    (wsPodsAdmission ([] : List ConnWrapper) 0 false).wrapper.isClosed = false
  ∧ (wsPodsAdmission ([] : List ConnWrapper) 0 false).wrapper
      ∈ (wsPodsAdmission ([] : List ConnWrapper) 0 false).conns
  ∧ (wsPodsAdmission ([] : List ConnWrapper) 0 false).socketClosed = true := by
  decide

/-- C9 (amended): a failed initial snapshot write makes the handler return with the
error and the deferred Close closes the socket, but the wrapper stays in the group set
with IsClosed = false; the first later sweep that attempts a write to it — here one
with a changed view — fails the write, sets IsClosed and prunes it from the set. -/
theorem failedInitialWriteLingersUntilPruned (cs : List ConnWrapper) (i : Nat) :
    (wsPodsAdmission cs i false).handlerErr = true
  ∧ (wsPodsAdmission cs i false).socketClosed = true
  ∧ (wsPodsAdmission cs i false).wrapper.isClosed = false
  ∧ (wsPodsAdmission cs i false).wrapper ∈ (wsPodsAdmission cs i false).conns
  ∧ (fanOut true (fun _ => false) [(wsPodsAdmission cs i false).wrapper]).conns = []
  ∧ (fanOut true (fun _ => false) [(wsPodsAdmission cs i false).wrapper]).closedIds
      = [i] := by
  refine ⟨rfl, rfl, rfl, ?_, ?_, ?_⟩ <;> simp [wsPodsAdmission, attachConn, fanOut]

/-- C10 (counterexample): the informer event handler registered by the manager is still
registered on the shared informer after the manager section returns — no removal call
exists — against the claim that nothing referencing the subject sessions remains once
the manager exits. -/
theorem informerHandlerPersistsAfterManagerExit :
    (managerRunAndExit [] 7).handlers = [7]
  ∧ (managerRunAndExit [] 7).handlers ≠ [] := by decide

/-- C10 (amended): the callbacks registered by the manager stay on the process-lifetime
informer after the manager exits, but the deferred cancel has cancelled pollingCtx, so
every later callback invocation returns at the top of send without building a view,
writing a frame, touching the session set or the last view, scheduling the side
effect, or changing the failure counter. -/
theorem postExitCallbacksAreNoOps (hs : List Nat) (h : Nat) (cs : List ConnWrapper)
    (lastView : List KubePodSchema) (lister : List Pod) (deploymentName : String)
    (w : Nat → Bool) (k : Nat) :
    (managerRunAndExit hs h).handlers = hs ++ [h]
  ∧ (managerRunAndExit hs h).pollingCtxDone = true
  ∧ (deploymentSend true false false cs lastView lister deploymentName w).conns = cs
  ∧ (deploymentSend true false false cs lastView lister deploymentName w).attempted = []
  ∧ (deploymentSend true false false cs lastView lister deploymentName w).lastView
      = lastView
  ∧ (deploymentSend true false false cs lastView lister deploymentName w).sideEffect
      = none
  ∧ sendWrapperCount k (deploymentSend true false false cs lastView lister
        deploymentName w) = k := by
  refine ⟨rfl, rfl, rfl, rfl, rfl, rfl, ?_⟩
  simp [deploymentSend, sendWrapperCount]

end YataiWs
